import Mathlib

/-!
Verification development for the FinOps alert-triage pipeline
(src/main.py, src/utils/agent_kit.py, src/utils/mongo_client.py).

Shallow embedding conventions:
* Python floats are modelled as rationals; every numeric literal of the
  source (0.80, 0.00005, 720, 12.24, ...) is exactly representable.
* Python strings are Lean strings; Python substring containment
  (needle in haystack) and str.lower are modelled on the character list.
* The mutable state dict AgentState of src/main.py is a record; each
  node is a function from the record (plus an environment capturing the
  external collaborators: vector search, Gemini, the payment rail,
  timestamps and randomness) to a new record, paired with the list of
  database writes the node performs (reasoning_logs / global_metrics
  inserts), so observability claims can be stated.
* A Python exception raised by a collaborator is an explicit outcome
  constructor in the environment; the node definitions reproduce the
  try/except structure of the source.
-/

/-- Python substring containment on character lists: needle occurs
contiguously in haystack. -/
def charsPre : List Char → List Char → Bool
  | [], _ => true
  | _ :: _, [] => false
  | a :: as, b :: bs => a == b && charsPre as bs

/-- Scan of every suffix of the haystack for the needle. -/
def charsSub (needle : List Char) : List Char → Bool
  | [] => needle.isEmpty
  | b :: bs => charsPre needle (b :: bs) || charsSub needle bs

/-- Python: needle in haystack (substring test). -/
def containsSub (needle haystack : String) : Bool :=
  charsSub needle.toList haystack.toList

/-- ASCII lower-casing of one character, the fragment of Python
str.lower the engine relies on (all keywords are ASCII). -/
def lowerChar (c : Char) : Char :=
  if 'A' ≤ c ∧ c ≤ 'Z' then Char.ofNat (c.toNat + 32) else c

/-- Python str.lower restricted to ASCII. -/
def pyLower (s : String) : String := String.mk (s.toList.map lowerChar)

/-- Python s.startswith p, as a character-list test. -/
def pyStartsWith (p s : String) : Bool := charsPre p.toList s.toList

/-- One retrieval result from FinOpsDB.search_infra_context, restricted
to the fields the engine reads (src/utils/mongo_client.py projection).
Fields read through dict.get with a default are Options. -/
structure ContextDoc where
  score : Option ℚ
  hourly_cost : Option ℚ
  developer_wallet : Option String
  content : String
deriving DecidableEq, Repr

/-- The score read of src/main.py line 248: result.get of the score
key, 0.0 when absent. -/
def scoreD (r : ContextDoc) : ℚ := r.score.getD 0

/-- max(result.get(...) for result in results) over a nonempty list
(src/main.py line 248); the empty case is unreachable there. -/
def maxScore : List ContextDoc → ℚ
  | [] => 0
  | r :: rs => (rs.map scoreD).foldl max (scoreD r)

/-- The alert dict produced by scout_node, restricted to fields later
nodes read. -/
structure Alert where
  alert_id : String
  severity : String
  resource_name : String
  alert_type : String
  message : String
  search_query : String
deriving DecidableEq, Repr

/-- AgentState of src/main.py (the TypedDict threaded through the
LangGraph nodes). -/
structure AgentState where
  server_info : Option Alert
  audit_log : List String
  confidence_score : Option ℚ
  workflow_status : String
  auditor_status : Option String
  context_data : Option (List ContextDoc)
  analysis : Option String
  recommendation : Option String
  tx_hash : Option String
  total_savings_usd : Option ℚ
  total_bounties_paid_eth : Option ℚ
deriving DecidableEq, Repr

/-- The initial state built in main() (src/main.py lines 674-686). -/
def initialState : AgentState :=
  { server_info := none
    audit_log := []
    confidence_score := none
    workflow_status := "PROCESSING"
    auditor_status := none
    context_data := none
    analysis := none
    recommendation := none
    tx_hash := none
    total_savings_usd := some 0
    total_bounties_paid_eth := some 0 }

/-- An audit_log entry: timestamp bracket followed by the message
(numeric formatting of the source is abstracted to toString). -/
def auditEntry (ts msg : String) : String := "[" ++ ts ++ "] " ++ msg

/-- One insert into the reasoning_logs collection
(FinOpsDB.save_reasoning_log), restricted to the fields the claims
mention. -/
structure ReasoningLogWrite where
  alert_id : String
  workflow_status : String
  recommendation : String
  confidence_score : ℚ
deriving DecidableEq, Repr

/-- One insert into the global_metrics collection
(FinOpsDB.save_global_metrics). -/
structure GlobalMetricsWrite where
  alert_id : String
  hourly_cost : ℚ
  monthly_savings : ℚ
  bounty_amount : ℚ
  mode : String
deriving DecidableEq, Repr

/-- A database write performed by a node. -/
inductive DbWrite
  | reasoning (w : ReasoningLogWrite)
  | metrics (w : GlobalMetricsWrite)
deriving DecidableEq, Repr

/-- Keyword extraction of src/main.py lines 361-373: first-match-wins
over the lower-cased analysis text, returning the
(recommendation, auditor_status) pair the auditor stores. -/
def extractRecommendation (analysis : String) : String × String :=
  if containsSub "decommission" (pyLower analysis) then ("DECOMMISSION", "APPROVED")
  else if containsSub "optimize" (pyLower analysis) then ("OPTIMIZE", "REVIEW")
  else if containsSub "monitor" (pyLower analysis) then ("MONITOR", "REVIEW")
  else ("REVIEW", "REVIEW")

/-- route_workflow of src/main.py lines 528-543, a pure function of the
state. -/
def route_workflow (s : AgentState) : String :=
  if s.workflow_status = "ESCALATED" then "escalate"
  else if s.workflow_status = "COMPLETED" then
    if s.auditor_status = some "APPROVED" then "paymaster" else "complete"
  else "continue"

/-- Outcome of one external call that may raise a Python exception. -/
inductive CallOutcome (α : Type)
  | exn (msg : String)
  | ok (a : α)
deriving DecidableEq, Repr

/-- Outcome of the FinOpsDB construction plus search_infra_context call
inside auditor_node: a collaborator raised, or a (possibly empty)
result list came back. -/
inductive SearchOutcome
  | err (msg : String)
  | ok (results : List ContextDoc)
deriving DecidableEq, Repr

/-- External collaborators of auditor_node: the retrieval outcome, the
Gemini generate_content outcome, and the timestamp used for audit
entries within the node. -/
structure AudEnv where
  search : SearchOutcome
  gemini : CallOutcome String
  ts : String
deriving DecidableEq, Repr

/-- auditor_node of src/main.py lines 205-382.  Mirrors the source
branch for branch: missing server_info escalates with no audit entry;
a retrieval error escalates via the outer except; an empty result list
records confidence 0 and escalates; a best score below 0.80 escalates
with recommendation NO CHANGE and one reasoning-log write; a Gemini
failure escalates after confidence_score and context_data were already
stored; otherwise the analysis is stored, status becomes COMPLETED and
the keyword extraction fixes recommendation and auditor_status.  The
db.close calls are modelled as non-failing. -/
def auditor_node (env : AudEnv) (s : AgentState) : AgentState × List DbWrite :=
  match s.server_info with
  | none =>
      ({ s with workflow_status := "ESCALATED" }, [])
  | some alert =>
    match env.search with
    | .err m =>
        ({ s with workflow_status := "ESCALATED",
                  audit_log := s.audit_log ++
                    [auditEntry env.ts ("Auditor: ERROR - " ++ m)] }, [])
    | .ok results =>
      if results.isEmpty then
        ({ s with confidence_score := some 0,
                  workflow_status := "ESCALATED",
                  audit_log := s.audit_log ++
                    [auditEntry env.ts "Auditor: ESCALATED - No matching context found"] }, [])
      else
        let ms := maxScore results
        if ms < 0.80 then
          ({ s with confidence_score := some ms,
                    workflow_status := "ESCALATED",
                    recommendation := some "NO CHANGE",
                    context_data := some results,
                    audit_log := s.audit_log ++
                      [auditEntry env.ts ("Auditor: ESCALATED - Confidence " ++ toString ms ++
                        " below threshold 0.80. Recommendation: NO CHANGE")] },
           [DbWrite.reasoning
              { alert_id := alert.alert_id
                workflow_status := "ESCALATED"
                recommendation := "NO CHANGE"
                confidence_score := ms }])
        else
          match env.gemini with
          | .exn m =>
              ({ s with confidence_score := some ms,
                        context_data := some results,
                        workflow_status := "ESCALATED",
                        audit_log := s.audit_log ++
                          [auditEntry env.ts ("Auditor: ERROR - " ++ m)] }, [])
          | .ok text =>
              let cls := extractRecommendation text
              ({ s with confidence_score := some ms,
                        context_data := some results,
                        analysis := some text,
                        workflow_status := "COMPLETED",
                        recommendation := some cls.1,
                        auditor_status := some cls.2,
                        audit_log := s.audit_log ++
                          [auditEntry env.ts ("Auditor: Analysis completed - Confidence " ++
                            toString ms ++ ", Status COMPLETED")] }, [])

/-- Environment of scout_node: the alert picked by random.choice over
the ten query variations, plus the two entry timestamps. -/
structure ScoutEnv where
  chosen : Alert
  ts1 : String
  ts2 : String
deriving DecidableEq, Repr

/-- scout_node of src/main.py lines 72-198: binds the chosen alert,
sets status PROCESSING, appends two audit entries. -/
def scout_node (env : ScoutEnv) (s : AgentState) : AgentState :=
  { s with
    server_info := some env.chosen
    workflow_status := "PROCESSING"
    audit_log := s.audit_log ++
      [auditEntry env.ts1 ("Scout: Alert " ++ env.chosen.alert_id ++ " detected"),
       auditEntry env.ts2 ("Scout: Resource " ++ env.chosen.resource_name ++
         " flagged as " ++ env.chosen.alert_type)] }

/-- escalate_node of src/main.py lines 550-567: appends one audit
entry, changes nothing else. -/
def escalate_node (ts : String) (s : AgentState) : AgentState :=
  { s with audit_log := s.audit_log ++
      [auditEntry ts "System: Alert escalated to human review"] }

/-- complete_node of src/main.py lines 570-587: appends one audit
entry, changes nothing else. -/
def complete_node (ts : String) (s : AgentState) : AgentState :=
  { s with audit_log := s.audit_log ++
      [auditEntry ts "System: Workflow completed successfully"] }

/-- The dictionaries returned by simulate_blockchain_transaction,
PaymasterAgent transfer helper and issue_bounty
(src/utils/agent_kit.py), restricted to the keys the engine and the
claims read; a key absent from the dictionary is none. -/
structure TxResult where
  success : Bool
  tx_hash : Option String
  error : Option String
  amount : ℚ
  recipient : String
  mode : Option String
deriving DecidableEq, Repr

/-- simulate_blockchain_transaction of src/utils/agent_kit.py lines
21-57; the secrets.token_hex randomness is the randomHex input. -/
def simulate_blockchain_transaction (randomHex : String) (recipient : String)
    (amount : ℚ) : TxResult :=
  { success := true
    tx_hash := some ("0x_sim_" ++ randomHex)
    error := none
    amount := amount
    recipient := recipient
    mode := some "SHADOW" }

/-- External collaborators of the live payment path of
src/utils/agent_kit.py. -/
structure LiveEnv where
  balanceCheck : CallOutcome ℚ
  transfer : CallOutcome String
  randomHex : String
  constructorFail : Option String
  initWalletFail : Option String
  runFail : Option String
  accountReady : Bool
deriving DecidableEq, Repr

/-- The transfer helper of PaymasterAgent (src/utils/agent_kit.py lines
231-345).  A balance-check exception is swallowed and the transfer is
attempted anyway; a zero or insufficient balance returns success false
before transferring; a transfer exception is caught here and mapped to
a success-false result (balance-related messages get a funding hint);
error message texts are abbreviated. -/
def PaymasterAgent.transfer_async (env : LiveEnv) (recipient : String)
    (amount : ℚ) : TxResult :=
  let earlyFail : Option TxResult :=
    match env.balanceCheck with
    | .exn _ => none
    | .ok bal =>
      if bal = 0 then
        some { success := false, tx_hash := none,
               error := some "Insufficient balance. Account has 0 ETH.",
               amount := amount, recipient := recipient, mode := none }
      else if bal < amount then
        some { success := false, tx_hash := none,
               error := some "Insufficient balance for requested amount.",
               amount := amount, recipient := recipient, mode := none }
      else none
  match earlyFail with
  | some r => r
  | none =>
    match env.transfer with
    | .ok tx =>
        { success := true, tx_hash := some tx, error := none,
          amount := amount, recipient := recipient, mode := none }
    | .exn m =>
        if containsSub "insufficient" (pyLower m) || containsSub "balance" (pyLower m) then
          { success := false, tx_hash := none,
            error := some "Insufficient balance or funds.",
            amount := amount, recipient := recipient, mode := none }
        else
          { success := false, tx_hash := none, error := some m,
            amount := amount, recipient := recipient, mode := none }

/-- A call of the PaymasterAgent issue_bounty method either raises
ValueError or returns a result dictionary. -/
inductive BountyOutcome
  | valueError (msg : String)
  | result (r : TxResult)
deriving DecidableEq, Repr

/-- The issue_bounty method of PaymasterAgent (src/utils/agent_kit.py
lines 179-229): input validation first (raising ValueError), then the
shadow branch, then the uninitialized-account fallback to simulation,
then the live transfer, whose surrounding asyncio.run machinery
failing (runFail) also falls back to simulation. -/
def PaymasterAgent.issue_bounty (env : LiveEnv) (amount : ℚ) (recipient : String)
    (shadow_mode : Bool) : BountyOutcome :=
  if recipient = "" || !(pyStartsWith "0x" recipient) then
    .valueError ("Invalid recipient address: " ++ recipient)
  else if amount ≤ 0 then
    .valueError "Invalid amount. Must be greater than 0."
  else if shadow_mode then
    .result (simulate_blockchain_transaction env.randomHex recipient amount)
  else if !env.accountReady then
    .result (simulate_blockchain_transaction env.randomHex recipient amount)
  else
    match env.runFail with
    | some _ => .result (simulate_blockchain_transaction env.randomHex recipient amount)
    | none => .result (PaymasterAgent.transfer_async env recipient amount)

/-- The standalone issue_bounty of src/utils/agent_kit.py lines
399-425: immediate simulation in shadow mode with no validation;
in live mode, agent construction, wallet initialization and any
ValueError raised by the method are caught and fall back to the
simulation.  A successful initialize_wallet leaves the account set,
hence accountReady is forced true on the live path. -/
def issue_bounty (env : LiveEnv) (amount : ℚ) (recipient : String)
    (shadow_mode : Bool) : TxResult :=
  if shadow_mode then
    simulate_blockchain_transaction env.randomHex recipient amount
  else
    match env.constructorFail with
    | some _ => simulate_blockchain_transaction env.randomHex recipient amount
    | none =>
      match env.initWalletFail with
      | some _ => simulate_blockchain_transaction env.randomHex recipient amount
      | none =>
        match PaymasterAgent.issue_bounty { env with accountReady := true }
                amount recipient false with
        | .valueError _ => simulate_blockchain_transaction env.randomHex recipient amount
        | .result r => r

/-- External collaborators of paymaster_node: the value returned (or
the exception raised) by its issue_bounty call, whether the MongoDB
persistence section succeeds, and the timestamp for audit entries.
The shipped call site passes shadow_mode true, so the returned value
is always a successful simulated receipt; the failure branches embed
the handling of src/main.py lines 506-519. -/
structure PayEnv where
  payResult : CallOutcome TxResult
  dbOk : Bool
  ts : String
deriving DecidableEq, Repr

/-- paymaster_node of src/main.py lines 389-521: skip unless
auditor_status is APPROVED; fail softly without context data or a
wallet address (Python falsiness: missing key or empty string); pay
the fixed 0.00005 ETH shadow bounty; on success bind tx_hash, add
monthly savings (hourly_cost times 720) and the bounty to the two
accumulators, append a success entry and write the reasoning log and
global metrics records (dbOk false models the persistence section
raising, caught by the outer except); on a failure result or an
exception append an entry and change nothing else. -/
def paymaster_node (env : PayEnv) (s : AgentState) : AgentState × List DbWrite :=
  if s.auditor_status ≠ some "APPROVED" then
    ({ s with audit_log := s.audit_log ++
        [auditEntry env.ts "Paymaster: Skipped - Not approved"] }, [])
  else
    match s.context_data.getD [] with
    | [] =>
        ({ s with audit_log := s.audit_log ++
            [auditEntry env.ts "Paymaster: Failed - No context data"] }, [])
    | top :: _ =>
      match top.developer_wallet with
      | none =>
          ({ s with audit_log := s.audit_log ++
              [auditEntry env.ts "Paymaster: Failed - No wallet address"] }, [])
      | some w =>
        if w = "" then
          ({ s with audit_log := s.audit_log ++
              [auditEntry env.ts "Paymaster: Failed - No wallet address"] }, [])
        else
          let hourly_cost := top.hourly_cost.getD 0
          let bounty_amount : ℚ := 0.00005
          let monthly_savings := hourly_cost * 720
          match env.payResult with
          | .exn m =>
              ({ s with audit_log := s.audit_log ++
                  [auditEntry env.ts ("Paymaster: ERROR - " ++ m)] }, [])
          | .ok r =>
            if r.success then
              let s1 : AgentState :=
                { s with
                  tx_hash := r.tx_hash
                  total_savings_usd := some (s.total_savings_usd.getD 0 + monthly_savings)
                  total_bounties_paid_eth :=
                    some (s.total_bounties_paid_eth.getD 0 + bounty_amount)
                  audit_log := s.audit_log ++
                    [auditEntry env.ts ("Paymaster: Payment successful (SHADOW) - to " ++ w)] }
              if env.dbOk then
                (s1,
                 [DbWrite.reasoning
                    { alert_id := (s.server_info.map Alert.alert_id).getD "UNKNOWN"
                      workflow_status := "APPROVED"
                      recommendation := s.recommendation.getD "DECOMMISSION"
                      confidence_score := s.confidence_score.getD 0 },
                  DbWrite.metrics
                    { alert_id := (s.server_info.map Alert.alert_id).getD "UNKNOWN"
                      hourly_cost := hourly_cost
                      monthly_savings := monthly_savings
                      bounty_amount := bounty_amount
                      mode := "SHADOW" }])
              else
                ({ s1 with audit_log := s1.audit_log ++
                    [auditEntry env.ts "Paymaster: ERROR - persistence failed"] }, [])
            else
              ({ s with audit_log := s.audit_log ++
                  [auditEntry env.ts ("Paymaster: Payment failed - " ++
                    r.error.getD "Unknown error")] }, [])

/-- The classifier contract exactly as the spec words it (spec section
4.3), for comparison with the code path of auditor_node. -/
def RecommendationClassifier.classify (analysisText : String) : String × String :=
  if containsSub "decommission" (pyLower analysisText) then ("DECOMMISSION", "APPROVED")
  else if containsSub "optimize" (pyLower analysisText) then ("OPTIMIZE", "REVIEW")
  else if containsSub "monitor" (pyLower analysisText) then ("MONITOR", "REVIEW")
  else ("REVIEW", "REVIEW")

/-- Modelled from the spec: the LIVE-mode BountyCalculator of spec
section 4.5 is absent from src/ (the shipped paymaster_node hardcodes
shadow mode and the fixed 0.00005 ETH bounty); this definition follows
the spec formula clamp(hourlyCost times 0.001, min 0.00001,
max 0.0001). -/
def BountyCalculator.computeLive (hourlyCost : ℚ) : ℚ :=
  min (max (hourlyCost * 0.001) 0.00001) 0.0001

/-- Sample concrete data for witnesses, shaped like the first query
variation of scout_node and the seeded knowledge documents. -/
def sampleAlert : Alert :=
  { alert_id := "ALT-2026-001"
    severity := "high"
    resource_name := "Legacy GPU Training Cluster"
    alert_type := "high_cost_idle_resource"
    message := "GPU cluster has been idle for 60+ days"
    search_query := "expensive GPU machine learning training cluster idle" }

/-- A knowledge document with the given score, cost and wallet. -/
def sampleDoc (sc hc : ℚ) (w : Option String) : ContextDoc :=
  { score := some sc, hourly_cost := some hc, developer_wallet := w,
    content := "Legacy GPU training cluster" }

/-- The state as it reaches the auditor: an alert has been bound. -/
def stateWithAlert : AgentState := { initialState with server_info := some sampleAlert }

/-! ## Claim C1: escalation observability in auditor_node -/

/-- C1 (amended): when retrieval succeeds but either returns no match
or only matches below the 0.80 threshold, auditor_node escalates with
the confidence recorded (0 when no matches); in the below-threshold
case it also sets recommendation NO CHANGE, appends an audit entry and
performs exactly one reasoning-log write recording the escalation,
whereas in the no-match case it appends an audit entry but leaves the
recommendation unchanged and performs no reasoning-log write. -/
theorem C1_amended (env : AudEnv) (s : AgentState) (alert : Alert)
    (hsi : s.server_info = some alert) :
    (env.search = .ok [] →
      (auditor_node env s).1.confidence_score = some 0 ∧
      (auditor_node env s).1.workflow_status = "ESCALATED" ∧
      (auditor_node env s).1.recommendation = s.recommendation ∧
      (auditor_node env s).1.audit_log = s.audit_log ++
        [auditEntry env.ts "Auditor: ESCALATED - No matching context found"] ∧
      (auditor_node env s).2 = []) ∧
    (∀ r rs, env.search = .ok (r :: rs) → maxScore (r :: rs) < 0.80 →
      (auditor_node env s).1.confidence_score = some (maxScore (r :: rs)) ∧
      (auditor_node env s).1.workflow_status = "ESCALATED" ∧
      (auditor_node env s).1.recommendation = some "NO CHANGE" ∧
      (auditor_node env s).2 =
        [DbWrite.reasoning
          { alert_id := alert.alert_id
            workflow_status := "ESCALATED"
            recommendation := "NO CHANGE"
            confidence_score := maxScore (r :: rs) }]) := by
  constructor
  · intro hse
    simp [auditor_node, hsi, hse]
  · intro r rs hse hlt
    simp [auditor_node, hsi, hse, hlt]

/-- Environment in which the retrieval finds nothing. -/
def C1_env : AudEnv := { search := .ok [], gemini := .ok "irrelevant", ts := "T0" }

/-- C1 (counterexample): on the concrete no-match run the claim fails:
the run escalates with confidence 0 as claimed, but the recommendation
is left at none (not NO CHANGE) and no reasoning-log record is
written. -/
theorem C1_counterexample :
    (auditor_node C1_env stateWithAlert).1.workflow_status = "ESCALATED" ∧
    (auditor_node C1_env stateWithAlert).1.confidence_score = some 0 ∧
    (auditor_node C1_env stateWithAlert).1.recommendation = none ∧
    (auditor_node C1_env stateWithAlert).2 = [] := by
  refine ⟨rfl, rfl, rfl, rfl⟩

/-- A document whose score 0.40 is below the threshold. -/
def C1_lowDoc : ContextDoc := sampleDoc (40/100) (1224/100) (some "0xDevWallet")

/-- Environment whose retrieval yields the single low-score document. -/
def C1_envLow : AudEnv := { search := .ok [C1_lowDoc], gemini := .ok "irrelevant", ts := "T1" }

/-- C1 (witness): the amended theorem applied to the concrete
below-threshold run. -/
theorem C1_witness :
    (auditor_node C1_envLow stateWithAlert).1.workflow_status = "ESCALATED" ∧
    (auditor_node C1_envLow stateWithAlert).1.recommendation = some "NO CHANGE" ∧
    (auditor_node C1_envLow stateWithAlert).1.confidence_score =
      some (maxScore [C1_lowDoc]) ∧
    (auditor_node C1_envLow stateWithAlert).2 =
      [DbWrite.reasoning
        { alert_id := "ALT-2026-001"
          workflow_status := "ESCALATED"
          recommendation := "NO CHANGE"
          confidence_score := maxScore [C1_lowDoc] }] := by
  have h := (C1_amended C1_envLow stateWithAlert sampleAlert rfl).2 C1_lowDoc [] rfl
    (by norm_num [maxScore, C1_lowDoc, sampleDoc, scoreD])
  exact ⟨h.2.1, h.2.2.1, h.1, h.2.2.2⟩

/-! ## Claim C2: router totality -/

/-- C2 (counterexample): for the PROCESSING status the router does not
return one of escalate, paymaster, complete and nothing aborts: it
returns the fourth value continue, which the graph wires to END. -/
theorem C2_counterexample :
    route_workflow initialState = "continue" ∧
    route_workflow initialState ≠ "escalate" ∧
    route_workflow initialState ≠ "paymaster" ∧
    route_workflow initialState ≠ "complete" := by
  refine ⟨rfl, by decide, by decide, by decide⟩

/-- C2 (amended): the router maps ESCALATED to escalate, COMPLETED
with APPROVED to paymaster, COMPLETED otherwise to complete, and any
other status (in particular PROCESSING) to continue, which ends the
run via END instead of aborting loudly; it never returns auditor, so
routing never loops back; and every state the auditor produces has
status ESCALATED or COMPLETED, so the router is total on the states
that actually reach it. -/
theorem C2_amended :
    (∀ s : AgentState,
      (s.workflow_status = "ESCALATED" → route_workflow s = "escalate") ∧
      (s.workflow_status = "COMPLETED" → s.auditor_status = some "APPROVED" →
        route_workflow s = "paymaster") ∧
      (s.workflow_status = "COMPLETED" → s.auditor_status ≠ some "APPROVED" →
        route_workflow s = "complete") ∧
      (s.workflow_status ≠ "ESCALATED" → s.workflow_status ≠ "COMPLETED" →
        route_workflow s = "continue") ∧
      route_workflow s ≠ "auditor") ∧
    (∀ (env : AudEnv) (s : AgentState),
      (auditor_node env s).1.workflow_status = "ESCALATED" ∨
      (auditor_node env s).1.workflow_status = "COMPLETED") := by
  constructor
  · intro s
    refine ⟨fun h1 => by simp [route_workflow, h1],
            fun h1 h2 => by simp [route_workflow, h1, h2],
            fun h1 h2 => by simp [route_workflow, h1, h2],
            fun h1 h2 => by simp [route_workflow, h1, h2],
            ?_⟩
    unfold route_workflow
    split_ifs <;> decide
  · intro env s
    obtain ⟨si, alog, cs, ws, ast, cd, an, rc, tx, tsv, tbp⟩ := s
    obtain ⟨search, gem, ts⟩ := env
    cases si with
    | none => left; rfl
    | some alert =>
      cases search with
      | err m => left; rfl
      | ok results =>
        cases results with
        | nil => left; rfl
        | cons r rs =>
          by_cases hms : maxScore (r :: rs) < 0.80
          · left; simp [auditor_node, hms]
          · cases gem with
            | exn m => left; simp [auditor_node, hms]
            | ok text => right; simp [auditor_node, hms]

/-- A state the auditor could hand to the router after an escalation. -/
def C2_escState : AgentState := { initialState with workflow_status := "ESCALATED" }

/-- A completed state approved for payment. -/
def C2_payState : AgentState :=
  { initialState with workflow_status := "COMPLETED", auditor_status := some "APPROVED" }

/-- A completed state not approved for payment. -/
def C2_compState : AgentState :=
  { initialState with workflow_status := "COMPLETED", auditor_status := some "REVIEW" }

/-- An auditor environment whose retrieval raises. -/
def C2_audEnv : AudEnv := { search := .err "connection refused", gemini := .ok "x", ts := "T2" }

/-- C2 (witness): the amended router theorem applied to the three
reachable concrete states, and the totality conjunct applied to a
concrete failing retrieval. -/
theorem C2_witness :
    route_workflow C2_escState = "escalate" ∧
    route_workflow C2_payState = "paymaster" ∧
    route_workflow C2_compState = "complete" ∧
    ((auditor_node C2_audEnv stateWithAlert).1.workflow_status = "ESCALATED" ∨
     (auditor_node C2_audEnv stateWithAlert).1.workflow_status = "COMPLETED") := by
  refine ⟨(C2_amended.1 C2_escState).1 rfl,
          (C2_amended.1 C2_payState).2.1 rfl rfl,
          (C2_amended.1 C2_compState).2.2.1 rfl (by decide),
          C2_amended.2 C2_audEnv stateWithAlert⟩

/-! ## Claim C3: keyword-priority classification -/

/-- C3: on the successful auditor path (matches found, best score at
or above 0.80, Gemini answered), the stored recommendation and
approval disposition are exactly the spec classifier applied to the
analysis text, and that classifier is the fixed first-match-wins
keyword priority: decommission beats optimize beats monitor beats the
REVIEW default, so a text with several trigger words is classified by
the highest-priority one. -/
theorem C3_classifier (env : AudEnv) (s : AgentState) (alert : Alert)
    (r : ContextDoc) (rs : List ContextDoc) (text : String)
    (hsi : s.server_info = some alert)
    (hse : env.search = .ok (r :: rs))
    (hms : ¬ maxScore (r :: rs) < 0.80)
    (hg : env.gemini = .ok text) :
    ((auditor_node env s).1.recommendation =
        some (RecommendationClassifier.classify text).1 ∧
     (auditor_node env s).1.auditor_status =
        some (RecommendationClassifier.classify text).2) ∧
    (containsSub "decommission" (pyLower text) = true →
      RecommendationClassifier.classify text = ("DECOMMISSION", "APPROVED")) ∧
    (containsSub "decommission" (pyLower text) = false →
     containsSub "optimize" (pyLower text) = true →
      RecommendationClassifier.classify text = ("OPTIMIZE", "REVIEW")) ∧
    (containsSub "decommission" (pyLower text) = false →
     containsSub "optimize" (pyLower text) = false →
     containsSub "monitor" (pyLower text) = true →
      RecommendationClassifier.classify text = ("MONITOR", "REVIEW")) ∧
    (containsSub "decommission" (pyLower text) = false →
     containsSub "optimize" (pyLower text) = false →
     containsSub "monitor" (pyLower text) = false →
      RecommendationClassifier.classify text = ("REVIEW", "REVIEW")) := by
  refine ⟨?_, ?_, ?_, ?_, ?_⟩
  · constructor <;>
      simp [auditor_node, hsi, hse, hms, hg, extractRecommendation,
        RecommendationClassifier.classify]
  · intro h1; simp [RecommendationClassifier.classify, h1]
  · intro h1 h2; simp [RecommendationClassifier.classify, h1, h2]
  · intro h1 h2 h3; simp [RecommendationClassifier.classify, h1, h2, h3]
  · intro h1 h2 h3; simp [RecommendationClassifier.classify, h1, h2, h3]

/-- An analysis text containing all three trigger words. -/
def C3_text : String :=
  "You should DECOMMISSION this cluster; also optimize backups and monitor usage."

/-- A high-confidence document. -/
def C3_doc : ContextDoc := sampleDoc (92/100) (1224/100) (some "0xDevWallet")

/-- Environment for the successful auditor path. -/
def C3_env : AudEnv := { search := .ok [C3_doc], gemini := .ok C3_text, ts := "T3" }

/-- C3 (witness): on a concrete text containing decommission, optimize
and monitor at once, the highest-priority keyword wins. -/
theorem C3_witness :
    (auditor_node C3_env stateWithAlert).1.recommendation = some "DECOMMISSION" ∧
    (auditor_node C3_env stateWithAlert).1.auditor_status = some "APPROVED" := by
  have h := C3_classifier C3_env stateWithAlert sampleAlert C3_doc [] C3_text rfl rfl
    (by norm_num [maxScore, C3_doc, sampleDoc, scoreD]) rfl
  have hc : RecommendationClassifier.classify C3_text = ("DECOMMISSION", "APPROVED") :=
    h.2.1 (by decide)
  exact ⟨by rw [h.1.1, hc], by rw [h.1.2, hc]⟩

/-! ## Claim C6: run without an alert -/

/-- An auditor environment that would succeed, showing the missing
alert is what causes the early exit. -/
def C6_env : AudEnv :=
  { search := .ok [sampleDoc (9/10) 1 none], gemini := .ok "monitor", ts := "T4" }

/-- C6 (counterexample): with no alert bound, the auditor exits with
status ESCALATED, not the claimed terminal COMPLETED, and appends no
audit note. -/
theorem C6_counterexample :
    (auditor_node C6_env initialState).1.workflow_status = "ESCALATED" ∧
    (auditor_node C6_env initialState).1.workflow_status ≠ "COMPLETED" ∧
    (auditor_node C6_env initialState).1.audit_log = initialState.audit_log := by
  refine ⟨rfl, by decide, rfl⟩

/-- C6 (amended): when the state carries no alert, auditor_node skips
all of its work and immediately returns the state with status set to
ESCALATED - no audit note, no database write, every other field
unchanged - and the router then sends the run to the escalate terminal
node rather than to complete. -/
theorem C6_amended (env : AudEnv) (s : AgentState) (h : s.server_info = none) :
    auditor_node env s = ({ s with workflow_status := "ESCALATED" }, []) ∧
    route_workflow { s with workflow_status := "ESCALATED" } = "escalate" := by
  constructor
  · simp [auditor_node, h]
  · simp [route_workflow]

/-- C6 (witness): the amended theorem applied to the initial state. -/
theorem C6_witness :
    auditor_node C6_env initialState =
      ({ initialState with workflow_status := "ESCALATED" }, []) ∧
    route_workflow { initialState with workflow_status := "ESCALATED" } = "escalate" :=
  ⟨(C6_amended C6_env initialState rfl).1, (C6_amended C6_env initialState rfl).2⟩

/-! ## Claim C4: LIVE-mode bounty bounds (spec-modelled) -/

/-- C4: the LIVE-mode bounty equals the clamp of 0.001 times the
hourly cost to [0.00001, 0.0001], and for every non-negative hourly
cost it lies within those bounds.  The calculator itself is modelled
from the spec because no LIVE-mode bounty computation exists under
src/. -/
theorem C4_liveBounds (hourlyCost : ℚ) (_h : 0 ≤ hourlyCost) :
    BountyCalculator.computeLive hourlyCost =
      min (max (hourlyCost * 0.001) 0.00001) 0.0001 ∧
    (0.00001 : ℚ) ≤ BountyCalculator.computeLive hourlyCost ∧
    BountyCalculator.computeLive hourlyCost ≤ 0.0001 := by
  refine ⟨rfl, ?_, ?_⟩
  · unfold BountyCalculator.computeLive
    exact le_min (le_max_right _ _) (by norm_num)
  · exact min_le_right _ _

/-- C4 (witness): the bounds at the concrete hourly cost 3, where the
raw product 0.003 is clamped down to 0.0001. -/
theorem C4_witness :
    (0 : ℚ) ≤ 3 ∧
    (0.00001 : ℚ) ≤ BountyCalculator.computeLive 3 ∧
    BountyCalculator.computeLive 3 ≤ 0.0001 :=
  ⟨by norm_num, (C4_liveBounds 3 (by norm_num)).2.1, (C4_liveBounds 3 (by norm_num)).2.2⟩

/-! ## Claim C5: SHADOW-mode bounty and savings -/

/-- C5: on a successful payment the paymaster adds the fixed SHADOW
constant 0.00005 to the bounty accumulator - the amount term does not
mention the cost - while the savings accumulator grows by hourly cost
times 720, and when persistence succeeds the global-metrics write
records the same two quantities. -/
theorem C5_shadow (env : PayEnv) (s : AgentState) (top : ContextDoc)
    (rest : List ContextDoc) (w : String) (r : TxResult)
    (ha : s.auditor_status = some "APPROVED")
    (hc : s.context_data = some (top :: rest))
    (hw : top.developer_wallet = some w)
    (hw2 : w ≠ "")
    (hp : env.payResult = .ok r)
    (hs : r.success = true) :
    (paymaster_node env s).1.total_bounties_paid_eth =
      some (s.total_bounties_paid_eth.getD 0 + 0.00005) ∧
    (paymaster_node env s).1.total_savings_usd =
      some (s.total_savings_usd.getD 0 + top.hourly_cost.getD 0 * 720) ∧
    (env.dbOk = true →
      (paymaster_node env s).2 =
        [DbWrite.reasoning
          { alert_id := (s.server_info.map Alert.alert_id).getD "UNKNOWN"
            workflow_status := "APPROVED"
            recommendation := s.recommendation.getD "DECOMMISSION"
            confidence_score := s.confidence_score.getD 0 },
         DbWrite.metrics
          { alert_id := (s.server_info.map Alert.alert_id).getD "UNKNOWN"
            hourly_cost := top.hourly_cost.getD 0
            monthly_savings := top.hourly_cost.getD 0 * 720
            bounty_amount := 0.00005
            mode := "SHADOW" }]) := by
  refine ⟨?_, ?_, ?_⟩ <;>
    cases hdb : env.dbOk <;>
      simp [paymaster_node, ha, hc, hw, hw2, hp, hs, hdb]

/-- The document paid against in the concrete scenario: cost 12.24. -/
def C5_doc : ContextDoc := sampleDoc (92/100) (1224/100) (some "0xDevWallet")

/-- The successful simulated receipt for the scenario. -/
def C5_okResult : TxResult :=
  simulate_blockchain_transaction "abc123" "0xDevWallet" 0.00005

/-- Paymaster environment where the rail succeeds and persistence
works. -/
def C5_env : PayEnv := { payResult := .ok C5_okResult, dbOk := true, ts := "T5" }

/-- Completed, approved state holding the 12.24-per-hour document. -/
def C5_state : AgentState :=
  { initialState with
      server_info := some sampleAlert
      workflow_status := "COMPLETED"
      auditor_status := some "APPROVED"
      confidence_score := some (92/100)
      context_data := some [C5_doc]
      recommendation := some "DECOMMISSION" }

/-- C5 (witness): at hourly cost 12.24 the run accumulates monthly
savings 8812.8 and the fixed bounty 0.00005. -/
theorem C5_witness :
    (paymaster_node C5_env C5_state).1.total_savings_usd = some 8812.8 ∧
    (paymaster_node C5_env C5_state).1.total_bounties_paid_eth = some 0.00005 := by
  have h := C5_shadow C5_env C5_state C5_doc [] "0xDevWallet" C5_okResult
    rfl rfl rfl (by decide) rfl rfl
  constructor
  · rw [h.2.1]
    norm_num [C5_state, C5_doc, sampleDoc, initialState]
  · rw [h.1]
    norm_num [C5_state, initialState]

/-! ## Claim C7: payment failure is a pure audit append -/

/-- C7: when the payment result reports failure or the payment call
raises, paymaster_node only appends the corresponding audit entry:
status, recommendation, confidence, tx_hash and both accumulators are
untouched (the returned state is the input state with one more audit
entry) and no database write happens. -/
theorem C7_frame (env : PayEnv) (s : AgentState) (top : ContextDoc)
    (rest : List ContextDoc) (w : String)
    (ha : s.auditor_status = some "APPROVED")
    (hc : s.context_data = some (top :: rest))
    (hw : top.developer_wallet = some w)
    (hw2 : w ≠ "") :
    (∀ r, env.payResult = .ok r → r.success = false →
      paymaster_node env s =
        ({ s with audit_log := s.audit_log ++
            [auditEntry env.ts ("Paymaster: Payment failed - " ++ r.error.getD "Unknown error")] },
         [])) ∧
    (∀ m, env.payResult = .exn m →
      paymaster_node env s =
        ({ s with audit_log := s.audit_log ++
            [auditEntry env.ts ("Paymaster: ERROR - " ++ m)] },
         [])) := by
  constructor
  · intro r hr hrs
    simp [paymaster_node, ha, hc, hw, hw2, hr, hrs]
  · intro m hm
    simp [paymaster_node, ha, hc, hw, hw2, hm]

/-- A failed payment result, as the live rail could return it. -/
def C7_failResult : TxResult :=
  { success := false, tx_hash := none, error := some "Insufficient balance",
    amount := 0.00005, recipient := "0xDevWallet", mode := none }

/-- Paymaster environment whose rail reports failure. -/
def C7_env : PayEnv := { payResult := .ok C7_failResult, dbOk := true, ts := "T6" }

/-- C7 (witness): on a concrete failed payment, tx_hash, status and
the accumulators are exactly the input values and no write happens. -/
theorem C7_witness :
    (paymaster_node C7_env C5_state).1.tx_hash = C5_state.tx_hash ∧
    (paymaster_node C7_env C5_state).1.workflow_status = "COMPLETED" ∧
    (paymaster_node C7_env C5_state).1.recommendation = C5_state.recommendation ∧
    (paymaster_node C7_env C5_state).1.confidence_score = C5_state.confidence_score ∧
    (paymaster_node C7_env C5_state).1.total_savings_usd = C5_state.total_savings_usd ∧
    (paymaster_node C7_env C5_state).1.total_bounties_paid_eth =
      C5_state.total_bounties_paid_eth ∧
    (paymaster_node C7_env C5_state).2 = [] := by
  have h := (C7_frame C7_env C5_state C5_doc [] "0xDevWallet"
      rfl rfl rfl (by decide)).1 C7_failResult rfl rfl
  rw [h]
  exact ⟨rfl, rfl, rfl, rfl, rfl, rfl, rfl⟩

/-! ## Claim C8: the audit trail is append-only -/

/-- C8: every node of the graph - scout, auditor, paymaster, escalate,
complete - returns an audit trail that extends the input audit trail
by a (possibly empty) suffix; no node removes or rewrites an existing
entry. -/
theorem C8_appendOnly :
    (∀ (env : ScoutEnv) (s : AgentState),
      ∃ t, (scout_node env s).audit_log = s.audit_log ++ t) ∧
    (∀ (env : AudEnv) (s : AgentState),
      ∃ t, (auditor_node env s).1.audit_log = s.audit_log ++ t) ∧
    (∀ (env : PayEnv) (s : AgentState),
      ∃ t, (paymaster_node env s).1.audit_log = s.audit_log ++ t) ∧
    (∀ (ts : String) (s : AgentState),
      ∃ t, (escalate_node ts s).audit_log = s.audit_log ++ t) ∧
    (∀ (ts : String) (s : AgentState),
      ∃ t, (complete_node ts s).audit_log = s.audit_log ++ t) := by
  refine ⟨?_, ?_, ?_, ?_, ?_⟩
  · intro env s
    exact ⟨_, rfl⟩
  · intro env s
    obtain ⟨si, alog, cs, ws, ast, cd, an, rc, tx, tsv, tbp⟩ := s
    obtain ⟨search, gem, ts⟩ := env
    cases si with
    | none => exact ⟨[], by simp [auditor_node]⟩
    | some alert =>
      cases search with
      | err m =>
          exact ⟨[auditEntry ts ("Auditor: ERROR - " ++ m)], by simp [auditor_node]⟩
      | ok results =>
        cases results with
        | nil =>
            exact ⟨[auditEntry ts "Auditor: ESCALATED - No matching context found"],
              by simp [auditor_node]⟩
        | cons r rs =>
          by_cases hms : maxScore (r :: rs) < 0.80
          · exact ⟨[auditEntry ts
                ("Auditor: ESCALATED - Confidence " ++ toString (maxScore (r :: rs)) ++
                  " below threshold 0.80. Recommendation: NO CHANGE")],
              by simp [auditor_node, hms]⟩
          · cases gem with
            | exn m =>
                exact ⟨[auditEntry ts ("Auditor: ERROR - " ++ m)],
                  by simp [auditor_node, hms]⟩
            | ok text =>
                exact ⟨[auditEntry ts
                    ("Auditor: Analysis completed - Confidence " ++
                      toString (maxScore (r :: rs)) ++ ", Status COMPLETED")],
                  by simp [auditor_node, hms]⟩
  · intro env s
    obtain ⟨pay, dbOk, ts⟩ := env
    by_cases ha : s.auditor_status = some "APPROVED"
    · rcases hcd : s.context_data with _ | ⟨_ | ⟨top, rest⟩⟩
      · exact ⟨[auditEntry ts "Paymaster: Failed - No context data"],
          by simp [paymaster_node, ha, hcd]⟩
      · exact ⟨[auditEntry ts "Paymaster: Failed - No context data"],
          by simp [paymaster_node, ha, hcd]⟩
      · rcases hw : top.developer_wallet with _ | w
        · exact ⟨[auditEntry ts "Paymaster: Failed - No wallet address"],
            by simp [paymaster_node, ha, hcd, hw]⟩
        · by_cases hw2 : w = ""
          · exact ⟨[auditEntry ts "Paymaster: Failed - No wallet address"],
              by simp [paymaster_node, ha, hcd, hw, hw2]⟩
          · cases pay with
            | exn m =>
                exact ⟨[auditEntry ts ("Paymaster: ERROR - " ++ m)],
                  by simp [paymaster_node, ha, hcd, hw, hw2]⟩
            | ok r =>
              by_cases hrs : r.success = true
              · cases dbOk with
                | true =>
                    exact ⟨[auditEntry ts
                        ("Paymaster: Payment successful (SHADOW) - to " ++ w)],
                      by simp [paymaster_node, ha, hcd, hw, hw2, hrs]⟩
                | false =>
                    exact ⟨[auditEntry ts
                        ("Paymaster: Payment successful (SHADOW) - to " ++ w),
                      auditEntry ts "Paymaster: ERROR - persistence failed"],
                      by simp [paymaster_node, ha, hcd, hw, hw2, hrs]⟩
              · exact ⟨[auditEntry ts
                    ("Paymaster: Payment failed - " ++ r.error.getD "Unknown error")],
                  by simp [paymaster_node, ha, hcd, hw, hw2, hrs]⟩
    · exact ⟨[auditEntry ts "Paymaster: Skipped - Not approved"],
        by simp [paymaster_node, ha]⟩
  · intro ts s
    exact ⟨_, rfl⟩
  · intro ts s
    exact ⟨_, rfl⟩

/-! ## Claim C9: shadow-mode bypasses validation, the agent method does not -/

/-- C9: the standalone issue_bounty in shadow mode always succeeds with
a simulated hash beginning 0x_sim_, for every amount and recipient and
with no validation at all, while the PaymasterAgent issue_bounty
method raises ValueError on an empty or non-0x recipient or a
non-positive amount before it ever looks at the mode flag. -/
theorem C9_validation :
    (∀ (env : LiveEnv) (amount : ℚ) (recipient : String),
      (issue_bounty env amount recipient true).success = true ∧
      ∃ rest, (issue_bounty env amount recipient true).tx_hash =
        some ("0x_sim_" ++ rest)) ∧
    (∀ (env : LiveEnv) (amount : ℚ) (recipient : String) (shadow_mode : Bool),
      recipient = "" ∨ pyStartsWith "0x" recipient = false ∨ amount ≤ 0 →
      ∃ m, PaymasterAgent.issue_bounty env amount recipient shadow_mode =
        .valueError m) := by
  constructor
  · intro env amount recipient
    exact ⟨rfl, env.randomHex, rfl⟩
  · intro env amount recipient shadow h
    rcases h with h | h | h
    · exact ⟨"Invalid recipient address: " ++ recipient,
        by simp [PaymasterAgent.issue_bounty, h]⟩
    · exact ⟨"Invalid recipient address: " ++ recipient,
        by simp [PaymasterAgent.issue_bounty, h]⟩
    · by_cases h1 : (recipient = "" || !(pyStartsWith "0x" recipient)) = true
      · exact ⟨"Invalid recipient address: " ++ recipient,
          by simp only [PaymasterAgent.issue_bounty, h1, if_true]⟩
      · exact ⟨"Invalid amount. Must be greater than 0.",
          by simp [PaymasterAgent.issue_bounty, h1, h]⟩

/-- A live environment whose transfer would succeed, irrelevant to the
shadow path. -/
def C9_env : LiveEnv :=
  { balanceCheck := .ok 1, transfer := .ok "0xreal", randomHex := "cafe",
    constructorFail := none, initWalletFail := none, runFail := none,
    accountReady := true }

/-- C9 (witness): with a negative amount and an empty recipient the
standalone shadow call still succeeds with a simulated hash, while the
agent method raises ValueError on the same inputs. -/
theorem C9_witness :
    (issue_bounty C9_env (-1) "" true).success = true ∧
    (∃ rest, (issue_bounty C9_env (-1) "" true).tx_hash = some ("0x_sim_" ++ rest)) ∧
    (∃ m, PaymasterAgent.issue_bounty C9_env (-1) "" true = .valueError m) :=
  ⟨(C9_validation.1 C9_env (-1) "").1, (C9_validation.1 C9_env (-1) "").2,
   C9_validation.2 C9_env (-1) "" true (Or.inl rfl)⟩

/-! ## Claim C10: live-mode failure handling in the standalone issue_bounty -/

/-- A live environment whose transfer call raises an exception whose
message has nothing to do with balances. -/
def C10_env : LiveEnv :=
  { balanceCheck := .ok 1, transfer := .exn "rpc timeout", randomHex := "feedbeef",
    constructorFail := none, initWalletFail := none, runFail := none,
    accountReady := false }

/-- C10 (counterexample): when the transfer call raises, the standalone
issue_bounty does not fall back to the simulation: the exception is
caught inside the transfer helper, which returns success false with
the raw error message and no transaction hash. -/
theorem C10_counterexample :
    (issue_bounty C10_env 1 "0xDevWallet" false).success = false ∧
    (issue_bounty C10_env 1 "0xDevWallet" false).error = some "rpc timeout" ∧
    (issue_bounty C10_env 1 "0xDevWallet" false).tx_hash = none := by
  refine ⟨rfl, rfl, rfl⟩

/-- C10 (amended): in live mode a failure of agent construction or of
wallet initialization (or of the asyncio machinery around the
transfer) makes the standalone issue_bounty fall back to the shadow
simulation with success true; an exception raised by the transfer call
itself is instead caught inside the transfer helper and yields success
false carrying the error message; and every success-false result is
the transfer helper output, so only its balance checks and its
transfer-exception handler produce failures, while construction and
initialization failures are indistinguishable from successful payments
by the success flag alone. -/
theorem C10_amended :
    (∀ (env : LiveEnv) (amount : ℚ) (recipient m : String),
      env.constructorFail = some m →
      issue_bounty env amount recipient false =
        simulate_blockchain_transaction env.randomHex recipient amount ∧
      (issue_bounty env amount recipient false).success = true) ∧
    (∀ (env : LiveEnv) (amount : ℚ) (recipient m : String),
      env.constructorFail = none → env.initWalletFail = some m →
      issue_bounty env amount recipient false =
        simulate_blockchain_transaction env.randomHex recipient amount ∧
      (issue_bounty env amount recipient false).success = true) ∧
    (∀ (env : LiveEnv) (amount : ℚ) (recipient m : String) (bal : ℚ),
      env.constructorFail = none → env.initWalletFail = none → env.runFail = none →
      recipient ≠ "" → pyStartsWith "0x" recipient = true → ¬ amount ≤ 0 →
      env.balanceCheck = .ok bal → bal ≠ 0 → ¬ bal < amount →
      env.transfer = .exn m →
      containsSub "insufficient" (pyLower m) = false →
      containsSub "balance" (pyLower m) = false →
      (issue_bounty env amount recipient false).success = false ∧
      (issue_bounty env amount recipient false).error = some m ∧
      (issue_bounty env amount recipient false).tx_hash = none) ∧
    (∀ (env : LiveEnv) (amount : ℚ) (recipient : String),
      (issue_bounty env amount recipient false).success = false →
      issue_bounty env amount recipient false =
        PaymasterAgent.transfer_async { env with accountReady := true }
          recipient amount) := by
  refine ⟨?_, ?_, ?_, ?_⟩
  · intro env amount recipient m hcf
    constructor
    · simp [issue_bounty, hcf]
    · simp [issue_bounty, hcf, simulate_blockchain_transaction]
  · intro env amount recipient m hcf hiw
    constructor
    · simp [issue_bounty, hcf, hiw]
    · simp [issue_bounty, hcf, hiw, simulate_blockchain_transaction]
  · intro env amount recipient m bal hcf hiw hrf hrne hrsw hamt hbal hb0 hblt htr hci hcb
    have hval : (recipient = "" || !(pyStartsWith "0x" recipient)) = false := by
      simp [hrne, hrsw]
    simp [issue_bounty, hcf, hiw, PaymasterAgent.issue_bounty, hval, hamt, hrf,
      PaymasterAgent.transfer_async, hbal, hb0, hblt, htr, hci, hcb]
  · intro env amount recipient hfail
    obtain ⟨hbc, htr, hrh, hcf, hiw, hrf, har⟩ := env
    cases hcf with
    | some m => simp [issue_bounty, simulate_blockchain_transaction] at hfail
    | none =>
      cases hiw with
      | some m => simp [issue_bounty, simulate_blockchain_transaction] at hfail
      | none =>
        by_cases hval : (recipient = "" || !(pyStartsWith "0x" recipient)) = true
        · simp [issue_bounty, PaymasterAgent.issue_bounty, hval,
            simulate_blockchain_transaction] at hfail
        · by_cases hamt : amount ≤ 0
          · simp [issue_bounty, PaymasterAgent.issue_bounty, hval, hamt,
              simulate_blockchain_transaction] at hfail
          · cases hrf with
            | some m =>
                simp [issue_bounty, PaymasterAgent.issue_bounty, hval, hamt,
                  simulate_blockchain_transaction] at hfail
            | none =>
                simp [issue_bounty, PaymasterAgent.issue_bounty, hval, hamt]

/-- A live environment whose agent construction raises (for example
because the CDP credentials are absent). -/
def C10_envConstr : LiveEnv :=
  { balanceCheck := .ok 1, transfer := .exn "rpc timeout", randomHex := "feedbeef",
    constructorFail := some "CDP_API_KEY_ID missing", initWalletFail := none,
    runFail := none, accountReady := false }

/-- C10 (witness): the amended theorem applied to a concrete
construction failure, which is reported as a success. -/
theorem C10_witness :
    issue_bounty C10_envConstr 1 "0xDevWallet" false =
      simulate_blockchain_transaction "feedbeef" "0xDevWallet" 1 ∧
    (issue_bounty C10_envConstr 1 "0xDevWallet" false).success = true :=
  ⟨(C10_amended.1 C10_envConstr 1 "0xDevWallet" "CDP_API_KEY_ID missing" rfl).1,
   (C10_amended.1 C10_envConstr 1 "0xDevWallet" "CDP_API_KEY_ID missing" rfl).2⟩
